import Mathlib

/-!
# Verification of the Gemini Telegram bot core logic

Shallow embedding of the per-user rate limiting, session storage,
"needs current data" classification, information-aggregation dispatch,
news-count parsing and text-splitting logic of `src/main.py` (primary
variant) and `src/main_backup.py` (backup variant), together with proofs
about the embedded definitions.

Timestamps are modelled as integers (seconds); `datetime.now()` becomes an
explicit `now : Int` parameter, `now - timedelta(minutes=1)` becomes
`now - 60`, and `now - timedelta(days=1)` becomes `now - 86400`.
-/

namespace GeminiBot

/-- Limit of requests per rolling minute (`MINUTE_LIMIT = 10` in both
`main.py` and `main_backup.py`). -/
def MINUTE_LIMIT : Int := 10

/-- Limit of requests per rolling day (`DAILY_LIMIT = 250`). -/
def DAILY_LIMIT : Int := 250

/-- Per-user entry of `request_counts`: the two sliding windows
`{'minute': [...timestamps...], 'day': [...timestamps...]}`. -/
structure RequestCounts where
  minute : List Int
  day : List Int
deriving Repr, DecidableEq

/-- `GeminiBot.clean_old_requests` (main.py lines 465-481, identical in
main_backup.py lines 203-219): keep only the minute-window timestamps with
`req_time > now - 60s` and the day-window timestamps with
`req_time > now - 24h`. -/
def clean_old_requests (now : Int) (rc : RequestCounts) : RequestCounts :=
  { minute := rc.minute.filter (fun t => decide (now - 60 < t)),
    day := rc.day.filter (fun t => decide (now - 86400 < t)) }

/-- `GeminiBot.get_remaining_requests` (main.py lines 483-493): purge, then
return `(max(0, MINUTE_LIMIT - minute_count), max(0, DAILY_LIMIT - day_count))`.
The purged state is returned explicitly because the Python mutates the
global `request_counts` in place. -/
def get_remaining_requests (now : Int) (rc : RequestCounts) :
    (Int × Int) × RequestCounts :=
  let rc' := clean_old_requests now rc
  let minuteRequests : Int := rc'.minute.length
  let dayRequests : Int := rc'.day.length
  ((max 0 (MINUTE_LIMIT - minuteRequests), max 0 (DAILY_LIMIT - dayRequests)), rc')

/-- `GeminiBot.can_make_request` (main.py lines 495-498):
`remaining_minute > 0 and remaining_day > 0`. -/
def can_make_request (now : Int) (rc : RequestCounts) : Bool × RequestCounts :=
  let r := get_remaining_requests now rc
  (decide (0 < r.1.1) && decide (0 < r.1.2), r.2)

/-- `GeminiBot.add_request` (main.py lines 500-504): append the current
timestamp to both windows. -/
def add_request (now : Int) (rc : RequestCounts) : RequestCounts :=
  { minute := rc.minute ++ [now], day := rc.day ++ [now] }

/-- Filtering twice with the same predicate is the same as filtering once. -/
theorem filter_idem {α : Type} (p : α → Bool) (l : List α) :
    (l.filter p).filter p = l.filter p := by
  induction l with
  | nil => rfl
  | cons a t ih =>
    by_cases h : p a = true
    · simp [List.filter, h, ih]
    · simp [List.filter, h, ih]

/-- Purging an already purged state changes nothing. -/
theorem clean_old_requests_idem (now : Int) (rc : RequestCounts) :
    clean_old_requests now (clean_old_requests now rc) = clean_old_requests now rc := by
  simp [clean_old_requests, filter_idem]

/-- C2: `get_remaining_requests` purges every record older than `now - 60s`
(minute window) resp. `now - 24h` (day window) — the resulting windows are
exactly the filtered ones and contain no expired record — then returns
`max 0 (10 - count_minute)` and `max 0 (250 - count_day)` computed on the
purged counts; both values are nonnegative, and if every minute record is
older than 60 seconds the full minute quota `10` is returned. -/
theorem get_remaining_requests_spec (now : Int) (rc : RequestCounts) :
    (get_remaining_requests now rc).2.minute
        = rc.minute.filter (fun t => decide (now - 60 < t)) ∧
    (get_remaining_requests now rc).2.day
        = rc.day.filter (fun t => decide (now - 86400 < t)) ∧
    (∀ t ∈ (get_remaining_requests now rc).2.minute, ¬ t < now - 60) ∧
    (∀ t ∈ (get_remaining_requests now rc).2.day, ¬ t < now - 86400) ∧
    (get_remaining_requests now rc).1.1
        = max 0 (MINUTE_LIMIT - ((get_remaining_requests now rc).2.minute.length : Int)) ∧
    (get_remaining_requests now rc).1.2
        = max 0 (DAILY_LIMIT - ((get_remaining_requests now rc).2.day.length : Int)) ∧
    0 ≤ (get_remaining_requests now rc).1.1 ∧
    0 ≤ (get_remaining_requests now rc).1.2 ∧
    ((∀ t ∈ rc.minute, t < now - 60) → (get_remaining_requests now rc).1.1 = MINUTE_LIMIT) := by
  refine ⟨rfl, rfl, ?_, ?_, rfl, rfl, le_max_left _ _, le_max_left _ _, ?_⟩
  · intro t ht
    simp only [get_remaining_requests, clean_old_requests, List.mem_filter,
      decide_eq_true_eq] at ht
    omega
  · intro t ht
    simp only [get_remaining_requests, clean_old_requests, List.mem_filter,
      decide_eq_true_eq] at ht
    omega
  · intro hall
    have hnil : rc.minute.filter (fun t => decide (now - 60 < t)) = [] := by
      apply List.filter_eq_nil_iff.mpr
      intro t ht
      have := hall t ht
      simp only [decide_eq_true_eq]
      omega
    simp [get_remaining_requests, clean_old_requests, hnil, MINUTE_LIMIT]

/-- C2 witness: at time `100`, with minute records at `10` (expired) and
`90` (live), the minute remainder is `9`. -/
theorem get_remaining_requests_spec_witness :
    (get_remaining_requests 100 ⟨[10, 90], [10, 90]⟩).1.1 = 9 ∧
    (get_remaining_requests 100 ⟨[10, 90], [10, 90]⟩).2.minute = [90] := by
  have h := get_remaining_requests_spec 100 ⟨[10, 90], [10, 90]⟩
  refine ⟨?_, ?_⟩
  · rw [h.2.2.2.2.1, h.1]
    decide
  · rw [h.1]
    decide

/-- C3: `can_make_request` returns `true` iff both remaining counts are
positive, and `false` iff at least one window is exhausted. -/
theorem can_make_request_spec (now : Int) (rc : RequestCounts) :
    (can_make_request now rc).1
      = (decide (0 < (get_remaining_requests now rc).1.1)
          && decide (0 < (get_remaining_requests now rc).1.2)) ∧
    ((can_make_request now rc).1 = false ↔
      ((get_remaining_requests now rc).1.1 ≤ 0 ∨ (get_remaining_requests now rc).1.2 ≤ 0)) := by
  refine ⟨rfl, ?_⟩
  simp only [can_make_request, Bool.and_eq_false_iff, decide_eq_false_iff_not, not_lt]

/-- One entry of a per-user session history:
`{"role": ..., "content": ...}` (main.py lines 919 and 943). -/
structure SessionTurn where
  role : String
  content : String
deriving Repr, DecidableEq

/-- Appending to `user_sessions[user_id]`, a `deque(maxlen=50)`
(main.py line 55): push to the back; once the length would exceed the cap
the oldest entries are dropped from the front. -/
def dequeAppend (cap : Nat) (q : List SessionTurn) (t : SessionTurn) : List SessionTurn :=
  let q' := q ++ [t]
  if cap < q'.length then q'.drop (q'.length - cap) else q'

/-- Appending in `main_backup.handle_message` (main_backup.py lines
427-439): because `user_sessions` is a `defaultdict`, the guard
`if user_id not in user_sessions` is true for a first-time user and the
entry is REPLACED by a plain Python list `[]`; subsequent appends are
ordinary unbounded list appends. -/
def backupListAppend (q : List SessionTurn) (t : SessionTurn) : List SessionTurn :=
  q ++ [t]

/-- Session cap used by `user_sessions` in `main.py` (deque maxlen). -/
def SESSION_CAP : Nat := 50

/-- `dequeAppend` never exceeds the cap and keeps the newest suffix. -/
theorem dequeAppend_length_le (cap : Nat) (q : List SessionTurn) (t : SessionTurn)
    (hq : q.length ≤ cap) : (dequeAppend cap q t).length ≤ cap := by
  simp only [dequeAppend]
  split
  · simp only [List.length_drop]
    omega
  · rename_i h
    simp only [not_lt] at h
    simpa using h

set_option maxRecDepth 20000 in
/-- C4 (code bug evaluation): in `main_backup.handle_message` the per-user
session store is replaced by an unbounded plain list, so after 60 appends
all 60 turns are retained — violating the `size ≤ 50` invariant — whereas
the `deque(maxlen=50)` store of `main.py` retains exactly the last 50
turns in chronological order (the first 10 are gone). -/
theorem backup_session_unbounded :
    ((List.range 60).foldl
        (fun q i => backupListAppend q ⟨"user", toString i⟩) []).length = 60 ∧
    ¬ ((List.range 60).foldl
        (fun q i => backupListAppend q ⟨"user", toString i⟩) []).length ≤ SESSION_CAP ∧
    (List.range 60).foldl
        (fun q i => dequeAppend SESSION_CAP q ⟨"user", toString i⟩) []
      = ((List.range 60).drop 10).map (fun i => ⟨"user", toString i⟩) := by
  refine ⟨by decide, by decide, by decide⟩

/-- The rate-limit refusal text of `main.handle_message`
(main.py lines 908-912) and `main.handle_photo` (lines 1163-1167):
an f-string interpolating both remaining counts. -/
def RATE_LIMIT_MSG (rm rd : Int) : String :=
  "⚠️ Превышен лимит запросов.\n🕐 Осталось в минуте: " ++ toString rm
    ++ "\n📅 Осталось сегодня: " ++ toString rd

/-- Fallback reply of `main.handle_message` when the Gemini call returned
`None` (main.py lines 949-955). -/
def API_FAIL_MSG : String :=
  "❌ Не удалось получить ответ от ИИ.\n\nПопробуйте:\n• Переформулировать вопрос\n• Повторить запрос через несколько секунд\n• Проверить соединение с интернетом"

/-- What a run of a message handler produced, as far as the claims are
concerned: the reply text, whether the language model was actually called,
and the resulting per-user state. -/
structure HandleResult where
  reply : String
  llmCalled : Bool
  requests : RequestCounts
  session : List SessionTurn
deriving Repr

/-- `GeminiBot.handle_message` (main.py lines 896-956), with the wall clock
(`now`) and the Gemini call (`llm`, returning `Optional[str]`) made
explicit.  Control flow mirrors the source: check `can_make_request`
(refuse with both remaining counts and do nothing else when false), append
the user turn to the session deque, call the API, and only when a response
came back `add_request`, re-read the remaining counts, build the reply
`f"{response}\n\n📊 Осталось запросов: ..."` and append the assistant
turn; when the call failed, reply with the fallback text. -/
def handle_message (now : Int) (llm : List SessionTurn → Option String)
    (rc : RequestCounts) (session : List SessionTurn) (userMessage : String) :
    HandleResult :=
  let c := can_make_request now rc
  if c.1 = false then
    let r := get_remaining_requests now c.2
    { reply := RATE_LIMIT_MSG r.1.1 r.1.2, llmCalled := false,
      requests := r.2, session := session }
  else
    let session1 := dequeAppend SESSION_CAP session ⟨"user", userMessage⟩
    match llm session1 with
    | some resp =>
        let rc2 := add_request now c.2
        let r := get_remaining_requests now rc2
        { reply := resp ++ "\n\n📊 Осталось запросов: " ++ toString r.1.1
            ++ "/" ++ toString MINUTE_LIMIT ++ " в минуту, " ++ toString r.1.2
            ++ "/" ++ toString DAILY_LIMIT ++ " сегодня",
          llmCalled := true, requests := r.2,
          session := dequeAppend SESSION_CAP session1 ⟨"assistant", resp⟩ }
    | none =>
        { reply := API_FAIL_MSG, llmCalled := true,
          requests := c.2, session := session1 }

/-- `GeminiBot.handle_photo` (main.py lines 1155-1224) restricted to its
quota behaviour: after the admission check, `add_request` is called
BEFORE the Gemini vision call, so the quota is consumed whether or not
the call succeeds. -/
def handle_photo (now : Int) (llmPhoto : Option String) (rc : RequestCounts) :
    String × RequestCounts :=
  let c := can_make_request now rc
  if c.1 = false then
    let r := get_remaining_requests now c.2
    (RATE_LIMIT_MSG r.1.1 r.1.2, r.2)
  else
    let rc2 := add_request now c.2
    match llmPhoto with
    | some resp => (resp, rc2)
    | none => ("Не удалось обработать изображение.", rc2)

/-- Quota behaviour of `main_backup.handle_message` (main_backup.py lines
355-378): `add_request` runs immediately after the admission check,
before any downstream work. -/
def handle_message_backup_quota (now : Int) (rc : RequestCounts) :
    Bool × RequestCounts :=
  let c := can_make_request now rc
  if c.1 = false then (false, c.2)
  else (true, add_request now c.2)

/-- `String.append` concatenates the underlying character lists. -/
theorem strData_append (s t : String) : (s ++ t).data = s.data ++ t.data := by
  cases s; cases t; rfl

/-- Re-reading the remaining counts immediately after a purge (at the same
clock value) gives the same answer: the purge is idempotent. -/
theorem get_remaining_requests_clean (now : Int) (rc : RequestCounts) :
    get_remaining_requests now (clean_old_requests now rc)
      = get_remaining_requests now rc := by
  simp [get_remaining_requests, clean_old_requests_idem]

/-- A freshly recorded timestamp survives the purge that happens at the
same clock value, so purging after `add_request` keeps exactly the purged
old records plus the new one. -/
theorem clean_add_request (now : Int) (rc : RequestCounts) :
    clean_old_requests now (add_request now (clean_old_requests now rc))
      = add_request now (clean_old_requests now rc) := by
  have hm : decide (now - 60 < now) = true := by simp
  have hd : decide (now - 86400 < now) = true := by simp
  simp [clean_old_requests, add_request, List.filter_append, filter_idem,
    List.filter_cons, hm, hd]

/-- C1 (amended): in `main.handle_message` the quota is consumed exactly
once and only after the Gemini call returned a response — a failed call
leaves the windows unchanged (beyond the purge of expired records) — but
in `main.handle_photo` and in `main_backup.handle_message` the quota is
consumed immediately after admission, BEFORE the model call, whether or
not that call succeeds. -/
theorem quota_recording_spec (now : Int) (llm : List SessionTurn → Option String)
    (rc : RequestCounts) (session : List SessionTurn) (msg : String) :
    ((can_make_request now rc).1 = true →
      llm (dequeAppend SESSION_CAP session ⟨"user", msg⟩) = none →
      (handle_message now llm rc session msg).requests = clean_old_requests now rc) ∧
    (∀ resp, (can_make_request now rc).1 = true →
      llm (dequeAppend SESSION_CAP session ⟨"user", msg⟩) = some resp →
      (handle_message now llm rc session msg).requests
        = add_request now (clean_old_requests now rc)) ∧
    ((can_make_request now rc).1 = true →
      ∀ photoResp : Option String,
        (handle_photo now photoResp rc).2 = add_request now (clean_old_requests now rc)) ∧
    ((can_make_request now rc).1 = true →
      (handle_message_backup_quota now rc).2
        = add_request now (clean_old_requests now rc)) := by
  have hc2 : (can_make_request now rc).2 = clean_old_requests now rc := rfl
  refine ⟨?_, ?_, ?_, ?_⟩
  · intro hcan hllm
    simp only [handle_message]
    rw [if_neg (by simp [hcan]), hllm]
    exact hc2
  · intro resp hcan hllm
    simp only [handle_message]
    rw [if_neg (by simp [hcan]), hllm]
    simp only [get_remaining_requests, hc2]
    exact clean_add_request now rc
  · intro hcan photoResp
    simp only [handle_photo]
    rw [if_neg (by simp [hcan])]
    cases photoResp <;> rw [hc2]
  · intro hcan
    simp only [handle_message_backup_quota]
    rw [if_neg (by simp [hcan]), hc2]

/-- C1 witness: with an empty state at time `0` the user is admitted; a
failing Gemini call leaves `main.handle_message`'s windows empty, a
successful one records exactly one timestamp, and `handle_photo` records
the timestamp even though its model call failed. -/
theorem quota_recording_spec_witness :
    (handle_message 0 (fun _ => none) ⟨[], []⟩ [] "привет").requests
        = clean_old_requests 0 ⟨[], []⟩ ∧
    (handle_message 0 (fun _ => some "ок") ⟨[], []⟩ [] "привет").requests
        = add_request 0 (clean_old_requests 0 ⟨[], []⟩) ∧
    (handle_photo 0 none ⟨[], []⟩).2 = add_request 0 (clean_old_requests 0 ⟨[], []⟩) := by
  have h1 := quota_recording_spec 0 (fun _ => none) ⟨[], []⟩ [] "привет"
  have h2 := quota_recording_spec 0 (fun _ => some "ок") ⟨[], []⟩ [] "привет"
  exact ⟨h1.1 (by decide) rfl, h2.2.1 "ок" (by decide) rfl,
    h1.2.2.1 (by decide) none⟩

/-- C1 counterexample: a photo request whose Gemini call fails (`none`)
still consumes quota — starting from empty windows at time `0`, the minute
window afterwards holds the record `[0]`, not the unchanged `[]` that the
claim requires for a failed model call. -/
theorem quota_on_failure_counterexample :
    (handle_photo 0 none ⟨[], []⟩).2.minute = [0] ∧
    (clean_old_requests 0 ⟨[], []⟩).minute = [] := by
  exact ⟨by decide, by decide⟩

/-- When admission fails, `main.handle_message` reduces to its refusal
branch: the rate-limit reply, no model call, purged windows, untouched
session. -/
theorem handle_message_refused (now : Int) (llm : List SessionTurn → Option String)
    (rc : RequestCounts) (session : List SessionTurn) (msg : String)
    (h : (can_make_request now rc).1 = false) :
    handle_message now llm rc session msg
      = { reply := RATE_LIMIT_MSG (get_remaining_requests now rc).1.1
            (get_remaining_requests now rc).1.2,
          llmCalled := false,
          requests := clean_old_requests now rc,
          session := session } := by
  have hc2 : (can_make_request now rc).2 = clean_old_requests now rc := rfl
  simp only [handle_message]
  rw [if_pos h, hc2, get_remaining_requests_clean]
  rfl

/-- When admission fails, `main.handle_photo` reduces to its refusal
branch: the rate-limit reply and the purged windows; the Gemini vision
call never happens. -/
theorem handle_photo_refused (now : Int) (photoResp : Option String)
    (rc : RequestCounts) (h : (can_make_request now rc).1 = false) :
    handle_photo now photoResp rc
      = (RATE_LIMIT_MSG (get_remaining_requests now rc).1.1
            (get_remaining_requests now rc).1.2,
         clean_old_requests now rc) := by
  have hc2 : (can_make_request now rc).2 = clean_old_requests now rc := rfl
  simp only [handle_photo]
  rw [if_pos h, hc2, get_remaining_requests_clean]
  rfl

/-- Both remaining counts appear literally inside the rate-limit reply. -/
theorem rate_limit_msg_shows_minute (rm rd : Int) :
    (toString rm).data <:+: (RATE_LIMIT_MSG rm rd).data :=
  ⟨("⚠️ Превышен лимит запросов.\n🕐 Осталось в минуте: ").data,
    ("\n📅 Осталось сегодня: " ++ toString rd).data,
    by simp [RATE_LIMIT_MSG, strData_append]⟩

/-- The day count appears literally inside the rate-limit reply. -/
theorem rate_limit_msg_shows_day (rm rd : Int) :
    (toString rd).data <:+: (RATE_LIMIT_MSG rm rd).data :=
  ⟨("⚠️ Превышен лимит запросов.\n🕐 Осталось в минуте: "
      ++ toString rm ++ "\n📅 Осталось сегодня: ").data, [],
    by simp [RATE_LIMIT_MSG, strData_append]⟩

/-- C5: when `can_make_request` is false, both inbound handlers
short-circuit. `main.handle_message` does not call the model, does not
touch the session, consumes no quota (the windows only lose
already-expired records and the remaining counts are unchanged), replies
with the rate-limit message in which both remaining counts appear
literally, and its outcome does not depend on the model oracle at all;
`main.handle_photo` likewise consumes no quota, sends the same
two-count refusal, and its outcome does not depend on the vision-call
oracle. -/
theorem rate_limited_short_circuit (now : Int) (llm : List SessionTurn → Option String)
    (photoResp : Option String) (rc : RequestCounts) (session : List SessionTurn)
    (msg : String) (h : (can_make_request now rc).1 = false) :
    (handle_message now llm rc session msg).llmCalled = false ∧
    (handle_message now llm rc session msg).session = session ∧
    (handle_message now llm rc session msg).requests = clean_old_requests now rc ∧
    (get_remaining_requests now (handle_message now llm rc session msg).requests).1
        = (get_remaining_requests now rc).1 ∧
    (handle_message now llm rc session msg).reply
        = RATE_LIMIT_MSG (get_remaining_requests now rc).1.1
            (get_remaining_requests now rc).1.2 ∧
    (toString (get_remaining_requests now rc).1.1).data
        <:+: (handle_message now llm rc session msg).reply.data ∧
    (toString (get_remaining_requests now rc).1.2).data
        <:+: (handle_message now llm rc session msg).reply.data ∧
    (∀ llm2 : List SessionTurn → Option String,
      handle_message now llm rc session msg = handle_message now llm2 rc session msg) ∧
    (handle_photo now photoResp rc).2 = clean_old_requests now rc ∧
    (get_remaining_requests now (handle_photo now photoResp rc).2).1
        = (get_remaining_requests now rc).1 ∧
    (handle_photo now photoResp rc).1
        = RATE_LIMIT_MSG (get_remaining_requests now rc).1.1
            (get_remaining_requests now rc).1.2 ∧
    (toString (get_remaining_requests now rc).1.1).data
        <:+: (handle_photo now photoResp rc).1.data ∧
    (toString (get_remaining_requests now rc).1.2).data
        <:+: (handle_photo now photoResp rc).1.data ∧
    (∀ other : Option String,
      handle_photo now photoResp rc = handle_photo now other rc) := by
  have hm := handle_message_refused now llm rc session msg h
  have hp := handle_photo_refused now photoResp rc h
  refine ⟨by rw [hm], by rw [hm], by rw [hm], ?_, by rw [hm], ?_, ?_, ?_,
    by rw [hp], ?_, by rw [hp], ?_, ?_, ?_⟩
  · rw [hm]
    exact congrArg Prod.fst (get_remaining_requests_clean now rc)
  · rw [hm]
    exact rate_limit_msg_shows_minute _ _
  · rw [hm]
    exact rate_limit_msg_shows_day _ _
  · intro llm2
    rw [handle_message_refused now llm rc session msg h,
      handle_message_refused now llm2 rc session msg h]
  · rw [hp]
    exact congrArg Prod.fst (get_remaining_requests_clean now rc)
  · rw [hp]
    exact rate_limit_msg_shows_minute _ _
  · rw [hp]
    exact rate_limit_msg_shows_day _ _
  · intro other
    rw [handle_photo_refused now photoResp rc h,
      handle_photo_refused now other rc h]

/-- C5 witness: a user with 10 live minute records at time `50` is
refused on both the text and the photo path: no model call, session
untouched, both replies show `0` minute and `240` day requests
remaining, and the photo handler records nothing. -/
theorem rate_limited_short_circuit_witness :
    (can_make_request 50 ⟨List.replicate 10 50, List.replicate 10 50⟩).1 = false ∧
    (handle_message 50 (fun _ => some "ответ")
        ⟨List.replicate 10 50, List.replicate 10 50⟩ [] "привет").llmCalled = false ∧
    (handle_message 50 (fun _ => some "ответ")
        ⟨List.replicate 10 50, List.replicate 10 50⟩ [] "привет").session = [] ∧
    (handle_message 50 (fun _ => some "ответ")
        ⟨List.replicate 10 50, List.replicate 10 50⟩ [] "привет").reply
      = RATE_LIMIT_MSG 0 240 ∧
    (handle_photo 50 (some "описание")
        ⟨List.replicate 10 50, List.replicate 10 50⟩).1 = RATE_LIMIT_MSG 0 240 ∧
    (handle_photo 50 (some "описание")
        ⟨List.replicate 10 50, List.replicate 10 50⟩).2
      = clean_old_requests 50 ⟨List.replicate 10 50, List.replicate 10 50⟩ := by
  have h := rate_limited_short_circuit 50 (fun _ => some "ответ") (some "описание")
    ⟨List.replicate 10 50, List.replicate 10 50⟩ [] "привет" (by decide)
  obtain ⟨h1, h2, h3, h4, h5, h6, h7, h8, h9, h10, h11, h12, h13, h14⟩ := h
  refine ⟨by decide, h1, h2, ?_, ?_, h9⟩
  · rw [h5]
    congr 1
  · rw [h11]
    congr 1

/-- Python `str.lower()` restricted to the alphabets the keyword lists
use: ASCII `A–Z` and Cyrillic `А–Я`/`Ё` are mapped to their lowercase
forms, every other character is kept. -/
def ruLowerChar (c : Char) : Char :=
  if 'A' ≤ c ∧ c ≤ 'Z' then Char.ofNat (c.toNat + 32)
  else if 'А' ≤ c ∧ c ≤ 'Я' then Char.ofNat (c.toNat + 32)
  else if c = 'Ё' then 'ё'
  else c

/-- `query.lower()`. -/
def ruLower (s : String) : String := ⟨s.data.map ruLowerChar⟩

/-- Does `hay` start with `needle`? (helper for the substring test). -/
def startsWithL : List Char → List Char → Bool
  | [], _ => true
  | _ :: _, [] => false
  | a :: as, b :: bs => a == b && startsWithL as bs

/-- Python's `needle in hay` substring test on character lists. -/
def containsL (needle : List Char) : List Char → Bool
  | [] => needle.isEmpty
  | c :: rest => startsWithL needle (c :: rest) || containsL needle rest

/-- Python's `keyword in text` substring containment on strings. -/
def containsSub (hay needle : String) : Bool := containsL needle.data hay.data

/-- `any(word in query_lower for word in words)`. -/
def anyWordIn (words : List String) (queryLower : String) : Bool :=
  words.any (fun w => containsSub queryLower w)

/-- `current_keywords` of `GeminiBot.needs_current_data`
(main.py lines 962-967). -/
def current_keywords : List String :=
  ["новости", "свежие новости", "последние новости",
   "курс валют", "курс доллара", "курс евро", "цена bitcoin",
   "погода сегодня", "погода сейчас", "текущая погода",
   "сколько лет", "возраст", "когда родился", "когда родилась"]

/-- `time_keywords` of `GeminiBot.needs_current_data`
(main.py lines 970-973). -/
def time_keywords : List String :=
  ["сегодня", "сейчас", "вчера", "завтра", "на данный момент",
   "в настоящее время", "текущий", "актуальн", "свеж", "последн"]

/-- `GeminiBot.needs_current_data` (main.py lines 957-989): explicit
current-information keywords win first; otherwise a temporal marker
triggers augmentation unless the message also contains both `интересн`
and `факт` (the interesting-fact carve-out). -/
def needs_current_data (query : String) : Bool :=
  let ql := ruLower query
  if anyWordIn current_keywords ql then true
  else if anyWordIn time_keywords ql then
    if containsSub ql "интересн" && containsSub ql "факт" then false
    else true
  else false

/-- The categories `GeminiBot.get_current_data` can dispatch to, plus the
`dateTime` category that the spec's claimed precedence order mentions. -/
inductive DataCategory where
  | news
  | currency
  | weather
  | age
  | generalSearch
  | dateTime
deriving Repr, DecidableEq

/-- News keywords of the `get_current_data` dispatch (main.py line 995). -/
def news_branch_words : List String := ["новости", "новость", "политическ"]

/-- Currency keywords of the dispatch (main.py line 997). -/
def currency_branch_words : List String := ["курс", "цена", "стоимость"]

/-- Weather keywords of the dispatch (main.py line 999). -/
def weather_branch_words : List String := ["погода"]

/-- Age keywords of the dispatch (main.py line 1001). -/
def age_branch_words : List String := ["сколько лет", "возраст", "лет"]

/-- The category chosen by `GeminiBot.get_current_data`
(main.py lines 991-1009): an `if/elif` chain testing news, then currency,
then weather, then age keywords against `query.lower()`, falling back to
the general DuckDuckGo search. -/
def getCurrentCategory (query : String) : DataCategory :=
  if anyWordIn news_branch_words (ruLower query) then .news
  else if anyWordIn currency_branch_words (ruLower query) then .currency
  else if anyWordIn weather_branch_words (ruLower query) then .weather
  else if anyWordIn age_branch_words (ruLower query) then .age
  else .generalSearch

/-- First-match-wins evaluation of an ordered `(category, predicate)`
table, defaulting to the general search. -/
def firstMatch : List (DataCategory × (String → Bool)) → String → DataCategory
  | [], _ => .generalSearch
  | (cat, p) :: rest, q => if p q then cat else firstMatch rest q

/-- The ordered dispatch table that `main.py`'s `get_current_data`
actually evaluates: News first, then Currency, Weather, Age. -/
def mainCategoryTable : List (DataCategory × (String → Bool)) :=
  [(.news, fun q => anyWordIn news_branch_words (ruLower q)),
   (.currency, fun q => anyWordIn currency_branch_words (ruLower q)),
   (.weather, fun q => anyWordIn weather_branch_words (ruLower q)),
   (.age, fun q => anyWordIn age_branch_words (ruLower q))]

/-- Modelled from the spec (refinement comparison only): the precedence
order the spec claims — DateTime first, then Currency, then Weather, then
News, then generic temporal markers, then the GeneralSearch fallback —
instantiated with the keyword sets the code defines; the date/time and
temporal-marker predicates, which `main.py`'s dispatcher does not define,
are taken as parameters. -/
def specClaimedCategory (dtPred tempPred : String → Bool) (query : String) :
    DataCategory :=
  if dtPred query then .dateTime
  else if anyWordIn currency_branch_words (ruLower query) then .currency
  else if anyWordIn weather_branch_words (ruLower query) then .weather
  else if anyWordIn news_branch_words (ruLower query) then .news
  else if tempPred query then .generalSearch
  else .generalSearch

/-- `GeminiBot.get_current_data` of `main.py` (lines 991-1009) with the
five lookup collaborators abstracted as oracles: the chosen branch's
result is returned directly — nothing is prepended to it. -/
def get_current_data_main (news currency weather age ddg : String → Option String)
    (query : String) : Option String :=
  if anyWordIn news_branch_words (ruLower query) then news query
  else if anyWordIn currency_branch_words (ruLower query) then currency query
  else if anyWordIn weather_branch_words (ruLower query) then weather query
  else if anyWordIn age_branch_words (ruLower query) then age query
  else ddg query

/-- C6 counterexample: on `"погода новости"` the spec's claimed precedence
(Weather is tested before News) yields `weather` for any choice of the
date/time and temporal predicates that do not fire, yet `main.py`'s
dispatcher yields `news`, because it tests the news keywords first. -/
theorem category_order_counterexample :
    getCurrentCategory "погода новости" = DataCategory.news ∧
    specClaimedCategory (fun _ => false) (fun _ => false) "погода новости"
      = DataCategory.weather ∧
    DataCategory.news ≠ DataCategory.weather := by
  exact ⟨by decide, by decide, by decide⟩

/-- C6 (amended): `main.py`'s `get_current_data` classifies every message
by first-match-wins evaluation of the fixed ordered table News →
Currency → Weather → Age → GeneralSearch fallback, so each message gets
exactly one category. -/
theorem getCurrentCategory_eq_firstMatch (query : String) :
    getCurrentCategory query = firstMatch mainCategoryTable query := by
  simp [getCurrentCategory, firstMatch, mainCategoryTable]

/-- C7 counterexample: `"новости сегодня интересный факт"` contains the
temporal marker `сегодня` together with both `интересн` and `факт`, yet
`needs_current_data` returns `true`, because the explicit keyword
`новости` is tested before the interesting-fact carve-out. -/
theorem interesting_fact_counterexample :
    needs_current_data "новости сегодня интересный факт" = true ∧
    containsSub (ruLower "новости сегодня интересный факт") "сегодня" = true ∧
    containsSub (ruLower "новости сегодня интересный факт") "интересн" = true ∧
    containsSub (ruLower "новости сегодня интересный факт") "факт" = true := by
  exact ⟨by decide, by decide, by decide, by decide⟩

/-- C7 (amended): a message whose lowercase form contains a temporal
marker together with both `интересн` and `факт`, and contains none of the
explicit current-information keywords, is not augmented:
`needs_current_data` returns `false`. -/
theorem interesting_fact_carveout (query : String)
    (htime : anyWordIn time_keywords (ruLower query) = true)
    (hint : containsSub (ruLower query) "интересн" = true)
    (hfact : containsSub (ruLower query) "факт" = true)
    (hnone : anyWordIn current_keywords (ruLower query) = false) :
    needs_current_data query = false := by
  simp [needs_current_data, htime, hint, hfact, hnone]

/-- C7 witness: the spec's own example `"расскажи интересный факт сегодня"`
is classified as not needing current data. -/
theorem interesting_fact_carveout_witness :
    needs_current_data "расскажи интересный факт сегодня" = false :=
  interesting_fact_carveout "расскажи интересный факт сегодня"
    (by decide) (by decide) (by decide) (by decide)

/-- Python `'\n\n'.join(results)`. -/
def joinSep (sep : String) : List String → String
  | [] => ""
  | [x] => x
  | x :: y :: rest => x ++ sep ++ joinSep sep (y :: rest)

/-- The fixed first line of the date/time block that
`main_backup.get_current_data` builds (main_backup.py line 1587). -/
def dateTimeHeader : String :=
  "🕐 АКТУАЛЬНАЯ ДАТА И ВРЕМЯ (ОБЯЗАТЕЛЬНО ИСПОЛЬЗУЙ ЭТУ ИНФОРМАЦИЮ):"

/-- `GeminiBot.get_current_data` of `main_backup.py` (lines 1563-1622):
`results` starts with the current-time block (a wall-clock-dependent
string, here the parameter `currentTimeInfo`), then the DuckDuckGo,
Wikipedia and news lookups each contribute a prefixed entry when they
return something; the entries are joined with blank lines. -/
def get_current_data_backup (currentTimeInfo : String)
    (ddg wiki news : Option String) : String :=
  let results := [currentTimeInfo]
  let results := match ddg with
    | some r => results ++ ["🔍 Поиск: " ++ r]
    | none => results
  let results := match wiki with
    | some r => results ++ ["📚 " ++ r]
    | none => results
  let results := match news with
    | some r => results ++ ["📰 " ++ r]
    | none => results
  joinSep "\n\n" results

/-- C8 (amended): whatever the lookups return, the block built by
`main_backup.get_current_data` begins with the date/time block. -/
theorem backup_block_starts_with_datetime (currentTimeInfo : String)
    (ddg wiki news : Option String) :
    currentTimeInfo.data <+: (get_current_data_backup currentTimeInfo ddg wiki news).data := by
  cases ddg <;> cases wiki <;> cases news <;>
    · simp only [get_current_data_backup, joinSep, strData_append,
        List.append_assoc]
      first
        | exact List.prefix_rfl
        | exact List.prefix_append _ _

/-- C8 counterexample: `main.py`'s `get_current_data` returns the selected
source's result unchanged — for the general-search query `"что такое квант"`
it returns exactly what the DuckDuckGo oracle produced, which does not
begin with the date/time block. -/
theorem main_block_no_datetime_counterexample :
    get_current_data_main (fun _ => none) (fun _ => none) (fun _ => none)
        (fun _ => none) (fun _ => some "Результат поиска") "что такое квант"
      = some "Результат поиска" ∧
    ¬ (dateTimeHeader.data <+: "Результат поиска".data) := by
  exact ⟨by decide, by decide⟩

/-- Digit-run extraction, scanning left to right: `cur` is the value of
the digit run currently being read, if any. -/
def extractNumbersAux : Option Nat → List Char → List Nat
  | some n, [] => [n]
  | none, [] => []
  | cur, c :: rest =>
    if c.isDigit then
      extractNumbersAux (some ((cur.getD 0) * 10 + (c.toNat - 48))) rest
    else
      match cur with
      | some n => n :: extractNumbersAux none rest
      | none => extractNumbersAux none rest

/-- `re.findall(r'\d+', query)` followed by `int(...)` on every match
(main.py lines 1016-1017), modelled over the decimal digits `0-9`: the
values of the maximal digit runs of the query, left to right. -/
def extract_numbers (query : String) : List Nat :=
  extractNumbersAux none query.data

/-- The article count chosen by `GeminiBot.search_news` in `main.py`
(lines 1014-1018): the first number found in the query if any, else 10,
clamped to at most 50. -/
def search_news_count (query : String) : Nat :=
  let numbers := extract_numbers query
  let count := match numbers with
    | [] => 10
    | n :: _ => n
  min count 50

/-- Python word characters (`\w`) restricted to the alphabets in use:
ASCII letters, digits, underscore, and the Cyrillic letters. -/
def isWordChar (c : Char) : Bool :=
  c.isAlphanum || c == '_' || (decide ('А' ≤ c) && decide (c ≤ 'я'))
    || c == 'Ё' || c == 'ё'

/-- `re.findall(r'\b(\d+)\b', query)` followed by `int(...)`
(main_backup.py line 1248): the values of the maximal digit runs whose
immediate neighbours (or the string edges) are not word characters.
`prevWord` says whether the previous character was a word character;
`cur` is the value of the digit run currently being read, when that run
started at a word boundary. -/
def wbNumbersAux (prevWord : Bool) (cur : Option Nat) : List Char → List Nat
  | [] =>
    match cur with
    | some n => [n]
    | none => []
  | c :: rest =>
    if c.isDigit then
      match cur with
      | some n => wbNumbersAux true (some (n * 10 + (c.toNat - 48))) rest
      | none =>
        if prevWord then wbNumbersAux true none rest
        else wbNumbersAux true (some (c.toNat - 48)) rest
    else
      match cur with
      | some n =>
        if isWordChar c then wbNumbersAux true none rest
        else n :: wbNumbersAux false none rest
      | none => wbNumbersAux (isWordChar c) none rest

/-- `GeminiBot.extract_numbers_from_query` of `main_backup.py` (lines
1245-1249): the word-bounded numbers of the query, keeping only the
positive ones (`if int(num) > 0`). -/
def extract_numbers_from_query (query : String) : List Nat :=
  (wbNumbersAux false none query.data).filter (fun n => decide (0 < n))

/-- The article count chosen by `GeminiBot.search_news` in
`main_backup.py` (lines 1260-1264): 10 by default; when the query holds
word-bounded positive numbers, their maximum clamped to at most 50. -/
def search_news_count_backup (query : String) : Nat :=
  let numbers := extract_numbers_from_query query
  if numbers.isEmpty then 10 else min (numbers.foldl Nat.max 0) 50

/-- C9 counterexample: in `"0 новостей"` the integer `0` appears, so the
claim demands the user-supplied count `min 0 50 = 0`; `main_backup`'s
news search filters non-positive numbers out and uses the default `10`
instead. -/
theorem backup_news_count_counterexample :
    extract_numbers "0 новостей" = [0] ∧
    search_news_count_backup "0 новостей" = 10 ∧
    (10 : Nat) ≠ min 0 50 := by
  exact ⟨by decide, by decide, by decide⟩

/-- C9 (amended): in `main.py` the news search requests the first integer
appearing in the message clamped to at most 50, defaulting to 10 when the
message contains no integer; in `main_backup.py` it requests the largest
word-bounded positive integer clamped to at most 50, defaulting to 10
when there is none. -/
theorem search_news_count_spec (query : String) :
    (extract_numbers query = [] → search_news_count query = 10) ∧
    (∀ n rest, extract_numbers query = n :: rest →
      search_news_count query = min n 50) ∧
    (extract_numbers_from_query query = [] →
      search_news_count_backup query = 10) ∧
    (extract_numbers_from_query query ≠ [] →
      search_news_count_backup query
        = min ((extract_numbers_from_query query).foldl Nat.max 0) 50) := by
  refine ⟨?_, ?_, ?_, ?_⟩
  · intro h
    simp [search_news_count, h]
  · intro n rest h
    simp [search_news_count, h]
  · intro h
    simp [search_news_count_backup, h]
  · intro h
    rcases he : extract_numbers_from_query query with _ | ⟨n, rest⟩
    · exact absurd he h
    · simp [search_news_count_backup, he]

/-- C9 witness: `"покажи 99 новостей"` asks for 99 articles and is clamped
to 50 in `main.py`; `"покажи 5 или 10 новостей"` yields the maximum 10 in
`main_backup.py`; `"последние новости"` contains no number and defaults
to 10 in both. -/
theorem search_news_count_spec_witness :
    search_news_count "покажи 99 новостей" = 50 ∧
    search_news_count "последние новости" = 10 ∧
    search_news_count_backup "покажи 5 или 10 новостей" = 10 ∧
    search_news_count_backup "последние новости" = 10 := by
  refine ⟨?_, ?_, ?_, ?_⟩
  · have h := (search_news_count_spec "покажи 99 новостей").2.1 99 [] (by decide)
    rw [h]
    decide
  · exact (search_news_count_spec "последние новости").1 (by decide)
  · have h := (search_news_count_spec "покажи 5 или 10 новостей").2.2.2 (by decide)
    rw [h]
    decide
  · exact (search_news_count_spec "последние новости").2.2.1 (by decide)

/-- Python whitespace (`str.strip`, `str.split`, `\s`), ASCII part:
space, tab, newline, carriage return, vertical tab, form feed. -/
def isPySpace (c : Char) : Bool :=
  c == ' ' || c == '\t' || c == '\n' || c == '\r' || c == '\x0b' || c == '\x0c'

/-- Python `str.strip()`: drop whitespace from both ends. -/
def pyStrip (l : List Char) : List Char :=
  ((l.dropWhile isPySpace).reverse.dropWhile isPySpace).reverse

/-- Sentence-ending punctuation of the split pattern `[.!?]+\s+`. -/
def isSentPunct (c : Char) : Bool := c == '.' || c == '!' || c == '?'

/-- `dropWhile` never lengthens a list. -/
theorem length_dropWhile_le {α : Type} (p : α → Bool) (l : List α) :
    (l.dropWhile p).length ≤ l.length := by
  induction l with
  | nil => simp
  | cons a t ih =>
    by_cases h : p a = true <;> simp [List.dropWhile, h] <;> omega

/-- `re.split(r'[.!?]+\s+', text)` (main.py line 384): a match is a maximal
run of `.!?` followed by at least one whitespace character (consumed
greedily); the text between matches is returned, empty pieces included.
`cur` is the piece accumulated so far. -/
def splitSentencesAux (cur : List Char) : List Char → List (List Char)
  | [] => [cur]
  | c :: rest =>
    if isSentPunct c then
      let after := rest.dropWhile isSentPunct
      match after with
      | [] => [cur ++ c :: rest.takeWhile isSentPunct]
      | d :: _ =>
        if isPySpace d then
          cur :: splitSentencesAux [] (after.dropWhile isPySpace)
        else
          splitSentencesAux (cur ++ c :: rest.takeWhile isSentPunct) after
    else
      splitSentencesAux (cur ++ [c]) rest
termination_by l => l.length
decreasing_by
  · have h1 := length_dropWhile_le isSentPunct rest
    have h2 := length_dropWhile_le isPySpace (rest.dropWhile isSentPunct)
    simp only [List.length_cons]
    omega
  · have h1 := length_dropWhile_le isSentPunct rest
    simp only [List.length_cons]
    omega
  · simp

/-- `sentence.split(',')`: split at every comma, keeping empty pieces. -/
def splitComma : List Char → List (List Char)
  | [] => [[]]
  | c :: rest =>
    if c = ',' then [] :: splitComma rest
    else
      match splitComma rest with
      | t :: ts => (c :: t) :: ts
      | [] => [[c]]

/-- Helper of `pyWords`: `cur` is the word being read, reversed. -/
def pyWordsAux (cur : List Char) : List Char → List (List Char)
  | [] => if cur.isEmpty then [] else [cur.reverse]
  | c :: rest =>
    if isPySpace c then
      if cur.isEmpty then pyWordsAux [] rest
      else cur.reverse :: pyWordsAux [] rest
    else pyWordsAux (c :: cur) rest

/-- Python `str.split()` with no argument: whitespace-separated words,
empty pieces dropped. -/
def pyWords (l : List Char) : List (List Char) := pyWordsAux [] l

/-- The loop state of `smart_split_text`: the accumulated `parts` and the
`current_part` being assembled. -/
structure SplitState where
  parts : List (List Char)
  cur : List Char

/-- Body of the clause loop of `smart_split_text` (main.py lines 400-414):
strip the clause, skip it when empty, extend `current_part` (joined with
`", "`) when the result stays within the limit, otherwise flush
`current_part` and restart from the clause. -/
def clauseStep (maxChars : Nat) (st : SplitState) (clauseRaw : List Char) :
    SplitState :=
  let clause := pyStrip clauseRaw
  if clause.isEmpty then st
  else
    let testPart := st.cur ++ (if st.cur.isEmpty then [] else [',', ' ']) ++ clause
    if testPart.length ≤ maxChars then ⟨st.parts, testPart⟩
    else ⟨if st.cur.isEmpty then st.parts else st.parts ++ [pyStrip st.cur], clause⟩

/-- Body of the forced word loop of `smart_split_text` (main.py lines
418-428): like `clauseStep` but joining with a single space; the state is
`(parts, temp_part)`. -/
def wordStep (maxChars : Nat) (acc : List (List Char) × List Char)
    (w : List Char) : List (List Char) × List Char :=
  let testPart := acc.2 ++ (if acc.2.isEmpty then [] else [' ']) ++ w
  if testPart.length ≤ maxChars then (acc.1, testPart)
  else (if acc.2.isEmpty then acc.1 else acc.1 ++ [pyStrip acc.2], w)

/-- Body of the sentence loop of `smart_split_text` (main.py lines
387-439): a stripped, non-empty sentence either goes through the
clause/word machinery when it exceeds the limit, or is appended to
`current_part` (joined with `". "`), flushing `current_part` when the
limit would be exceeded. -/
def processSentence (maxChars : Nat) (st : SplitState)
    (sentenceRaw : List Char) : SplitState :=
  let sentence := pyStrip sentenceRaw
  if sentence.isEmpty then st
  else if maxChars < sentence.length then
    let st1 : SplitState :=
      if st.cur.isEmpty then st else ⟨st.parts ++ [pyStrip st.cur], []⟩
    let st2 := (splitComma sentence).foldl (clauseStep maxChars) st1
    if maxChars < st2.cur.length then
      let res := (pyWords st2.cur).foldl (wordStep maxChars) (st2.parts, [])
      ⟨res.1, res.2⟩
    else st2
  else
    let testPart := st.cur ++ (if st.cur.isEmpty then [] else ['.', ' ']) ++ sentence
    if testPart.length ≤ maxChars then ⟨st.parts, testPart⟩
    else ⟨if st.cur.isEmpty then st.parts else st.parts ++ [pyStrip st.cur], sentence⟩

/-- The final merge loop of `smart_split_text` (main.py lines 446-455):
parts shorter than 10 characters are glued onto the previous final part
when that stays within the limit, kept alone when non-empty otherwise. -/
def mergeShort (maxChars : Nat) (fp : List (List Char)) (partRaw : List Char) :
    List (List Char) :=
  let part := pyStrip partRaw
  if part.length < 10 then
    match fp.getLast? with
    | some last =>
        if (last ++ ' ' :: part).length ≤ maxChars then
          fp.dropLast ++ [last ++ ' ' :: part]
        else if part.isEmpty then fp else fp ++ [part]
    | none => if part.isEmpty then fp else fp ++ [part]
  else fp ++ [part]

/-- The last-resort chunking of `smart_split_text` (main.py lines
458-461): `text[i:i+max_chars]` for `i in range(0, len(text), max_chars)`. -/
def chunkList (maxChars : Nat) : List Char → List (List Char)
  | [] => []
  | c :: cs => (c :: cs.take (maxChars - 1)) :: chunkList maxChars (cs.drop (maxChars - 1))
termination_by l => l.length
decreasing_by
  simp only [List.length_cons, List.length_drop]
  omega

/-- `GeminiBot.smart_split_text` (main.py lines 375-463): return the text
whole when it fits, otherwise split it along sentences, clauses and words,
merge over-short parts, and fall back to fixed-size chunks when nothing
was produced. -/
def smart_split_text (text : String) (maxChars : Nat) : List String :=
  if text.length ≤ maxChars then [text]
  else
    let st := (splitSentencesAux [] text.data).foldl (processSentence maxChars) ⟨[], []⟩
    let parts := if st.cur.isEmpty then st.parts else st.parts ++ [pyStrip st.cur]
    let finalParts := parts.foldl (mergeShort maxChars) []
    let finalParts :=
      if finalParts.isEmpty then chunkList maxChars text.data else finalParts
    finalParts.map fun l => ⟨l⟩

/-- Chunking a non-empty text yields at least one chunk. -/
theorem chunkList_ne_nil (maxChars : Nat) (l : List Char) (h : l ≠ []) :
    chunkList maxChars l ≠ [] := by
  cases l with
  | nil => exact absurd rfl h
  | cons c cs => simp [chunkList]

/-- C10: on a non-empty text and a positive limit, `smart_split_text`
returns a non-empty list of parts, and a text that already fits within
the limit is returned whole as the single part, unmodified. -/
theorem smart_split_text_spec (text : String) (maxChars : Nat)
    (hne : text ≠ "") (hpos : 0 < maxChars) :
    smart_split_text text maxChars ≠ [] ∧
    (text.length ≤ maxChars → smart_split_text text maxChars = [text]) := by
  have hdata : text.data ≠ [] := fun h => hne (String.ext (h.trans rfl))
  constructor
  · by_cases hlen : text.length ≤ maxChars
    · simp [smart_split_text, hlen]
    · simp only [smart_split_text, hlen, if_false]
      intro hmap
      rw [List.map_eq_nil_iff] at hmap
      split at hmap
      all_goals split at hmap
      all_goals
        first
          | exact chunkList_ne_nil maxChars text.data hdata hmap
          | (rename_i hempty; rw [hmap] at hempty; simp at hempty)
  · intro h
    simp [smart_split_text, h]

/-- C10 witness: a six-character text with limit 200 is returned whole. -/
theorem smart_split_text_spec_witness :
    smart_split_text "привет" 200 = ["привет"] :=
  (smart_split_text_spec "привет" 200 (by decide) (by decide)).2 (by decide)

end GeminiBot
